import Mathlib

/-!
Verification development for the sporty_web_assignment repository.

Two components carry the design content and are embedded here:

1. Locator Resolution (src/core/base/base_page.py) — sequential-fallback
   element lookup: find_element, find_elements, click_element and the
   boolean probes (is_element_present, is_element_not_present,
   is_element_visible, is_element_clickable, wait_for_text,
   wait_for_element_to_disappear).

2. Driver Registry (src/core/driver_manager.py) — the per-worker WebDriver
   cache: get_mobile_driver, quit_driver, quit_all_drivers,
   _cleanup_worker, get_current_device, get_current_browser,
   get_active_workers, _get_worker_key, plus a static model of which
   registry accesses happen inside the `with cls._lock` region.

The browser itself is external: every `wait.until(...)` call is modelled by
an oracle function (the outcome of that wait at the effective wait time),
and the driver factory call is modelled by an optional error (none means
the factory returned a fresh session, some msg means it raised).
-/

/-! ## Locator Resolution model (src/core/base/base_page.py) -/

/-- A locator tuple (strategy, value), e.g. (By.XPATH, "//a"). -/
structure Locator where
  strategy : String
  selector : String
deriving DecidableEq, Repr

/-- Elements are opaque handles; identity is all the claims need. -/
abbrev Element := Nat

/-- ElementNotFoundException(locator, message, timeout) from
src/core/exceptions/framework_exceptions.py. The `message` field is the
explicitly passed message (`none` means the constructor generates its
default message); `locator` and `timeout` are the diagnostic payload. -/
structure ElementNotFoundExc where
  locator : List Locator
  message : Option String
  timeout : Option Int
deriving DecidableEq, Repr

/-- The line `wait_time = timeout or Settings.BROWSER.explicit_wait`
for an int-typed timeout: a Python int is falsy exactly when it is 0. -/
def waitTime (timeout explicit_wait : Int) : Int :=
  if timeout = 0 then explicit_wait else timeout

/-- The same line for an Optional[int] timeout (wait_for_text and
wait_for_element_to_disappear default the parameter to None). -/
def waitTimeOpt (timeout : Option Int) (explicit_wait : Int) : Int :=
  match timeout with
  | none => explicit_wait
  | some t => waitTime t explicit_wait

/-- The shared for-loop of find_element / find_elements / click_element:
probe each locator in sequence; stop at the first locator whose wait
succeeds, reporting that locator and the element the wait produced.
`probe loc = none` models `wait.until(...)` raising TimeoutException. -/
def firstHit (probe : Locator → Option Element) : List Locator → Option (Locator × Element)
  | [] => none
  | loc :: rest =>
    match probe loc with
    | some e => some (loc, e)
    | none => firstHit probe rest

/-- The locators on which the loop actually invokes `wait.until`:
every locator before the first success, plus the succeeding one. -/
def consultedLocators (probe : Locator → Option Element) : List Locator → List Locator
  | [] => []
  | loc :: rest =>
    match probe loc with
    | some _ => [loc]
    | none => loc :: consultedLocators probe rest

/-- The shared loop of the boolean probes: return True at the first
locator whose wait succeeds, False once every locator has timed out. -/
def anyLocatorHit (probe : Locator → Bool) : List Locator → Bool
  | [] => false
  | loc :: rest => if probe loc then true else anyLocatorHit probe rest

/-- BasePage.find_element. `presence wt loc` is the outcome of
`wait.until(EC.presence_of_element_located(loc))` with wait time wt.
The single-locator overload is the one-element list. -/
def find_element (presence : Int → Locator → Option Element)
    (locators : List Locator) (timeout explicit_wait : Int) :
    Except ElementNotFoundExc Element :=
  if locators.isEmpty then
    Except.error ⟨[], some "No locators provided", none⟩
  else
    let wt := waitTime timeout explicit_wait
    match firstHit (presence wt) locators with
    | some (_, e) => Except.ok e
    | none => Except.error ⟨locators, none, some wt⟩

/-- BasePage.find_elements. On the first locator whose presence wait
succeeds it returns `driver.find_elements(*loc)`, modelled by
`elementsOf loc`; if the set is empty or every locator timed out, []. -/
def find_elements (presence : Int → Locator → Option Element)
    (elementsOf : Locator → List Element)
    (locators : List Locator) (timeout explicit_wait : Int) : List Element :=
  if locators.isEmpty then []
  else
    let wt := waitTime timeout explicit_wait
    match firstHit (presence wt) locators with
    | some (loc, _) => elementsOf loc
    | none => []

/-- BasePage.click_element. `clickable wt loc` is the outcome of
`wait.until(EC.element_to_be_clickable(loc))`; on success the found
element is clicked — the returned element is the one that was clicked. -/
def click_element (clickable : Int → Locator → Option Element)
    (locators : List Locator) (timeout explicit_wait : Int) :
    Except ElementNotFoundExc Element :=
  if locators.isEmpty then
    Except.error ⟨[], some "No locators provided for click operation", none⟩
  else
    let wt := waitTime timeout explicit_wait
    match firstHit (clickable wt) locators with
    | some (_, e) => Except.ok e
    | none => Except.error ⟨locators, some "Clickable element not found", some wt⟩

/-- BasePage.is_element_present: the timeout parameter is used as given
(no falsy-replacement in this function). -/
def is_element_present (presence : Int → Locator → Bool)
    (locators : List Locator) (timeout : Int) : Bool :=
  if locators.isEmpty then false
  else anyLocatorHit (presence timeout) locators

/-- BasePage.is_element_not_present, built on the invisibility wait. -/
def is_element_not_present (invisibility : Int → Locator → Bool)
    (locators : List Locator) (timeout : Int) : Bool :=
  if locators.isEmpty then true
  else anyLocatorHit (invisibility timeout) locators

/-- BasePage.is_element_visible. -/
def is_element_visible (visibility : Int → Locator → Bool)
    (locators : List Locator) (timeout : Int) : Bool :=
  if locators.isEmpty then false
  else anyLocatorHit (visibility timeout) locators

/-- BasePage.is_element_clickable. -/
def is_element_clickable (clickable : Int → Locator → Bool)
    (locators : List Locator) (timeout : Int) : Bool :=
  if locators.isEmpty then false
  else anyLocatorHit (clickable timeout) locators

/-- BasePage.wait_for_text. `textPresent wt loc text` is the outcome of
`wait.until(EC.text_to_be_present_in_element(loc, text))`. -/
def wait_for_text (textPresent : Int → Locator → String → Bool)
    (locators : List Locator) (text : String)
    (timeout : Option Int) (explicit_wait : Int) : Bool :=
  if locators.isEmpty then false
  else
    let wt := waitTimeOpt timeout explicit_wait
    anyLocatorHit (fun loc => textPresent wt loc text) locators

/-- BasePage.wait_for_element_to_disappear. -/
def wait_for_element_to_disappear (invisibility : Int → Locator → Bool)
    (locators : List Locator) (timeout : Option Int) (explicit_wait : Int) : Bool :=
  if locators.isEmpty then false
  else
    let wt := waitTimeOpt timeout explicit_wait
    anyLocatorHit (invisibility wt) locators

/-! ### Helper lemmas for the fallback loop -/

theorem firstHit_of_all_none (probe : Locator → Option Element)
    (locs : List Locator) (h : ∀ loc ∈ locs, probe loc = none) :
    firstHit probe locs = none := by
  induction locs with
  | nil => rfl
  | cons loc rest ih =>
    have hl := h loc (by simp)
    simp only [firstHit, hl]
    exact ih (fun l hm => h l (by simp [hm]))

theorem consultedLocators_of_all_none (probe : Locator → Option Element)
    (locs : List Locator) (h : ∀ loc ∈ locs, probe loc = none) :
    consultedLocators probe locs = locs := by
  induction locs with
  | nil => rfl
  | cons loc rest ih =>
    have hl := h loc (by simp)
    simp only [consultedLocators, hl]
    exact congrArg (loc :: ·) (ih (fun l hm => h l (by simp [hm])))

theorem firstHit_split (probe : Locator → Option Element)
    (pre : List Locator) (loc : Locator) (post : List Locator) (e : Element)
    (hpre : ∀ l ∈ pre, probe l = none) (hloc : probe loc = some e) :
    firstHit probe (pre ++ loc :: post) = some (loc, e) := by
  induction pre with
  | nil => simp [firstHit, hloc]
  | cons p rest ih =>
    have hp := hpre p (by simp)
    simp only [List.cons_append, firstHit, hp]
    exact ih (fun l hm => hpre l (by simp [hm]))

theorem consultedLocators_split (probe : Locator → Option Element)
    (pre : List Locator) (loc : Locator) (post : List Locator) (e : Element)
    (hpre : ∀ l ∈ pre, probe l = none) (hloc : probe loc = some e) :
    consultedLocators probe (pre ++ loc :: post) = pre ++ [loc] := by
  induction pre with
  | nil => simp [consultedLocators, hloc]
  | cons p rest ih =>
    have hp := hpre p (by simp)
    simp only [List.cons_append, consultedLocators, hp]
    exact congrArg (p :: ·) (ih (fun l hm => hpre l (by simp [hm])))

theorem anyLocatorHit_of_all_false (probe : Locator → Bool)
    (locs : List Locator) (h : ∀ loc ∈ locs, probe loc = false) :
    anyLocatorHit probe locs = false := by
  induction locs with
  | nil => rfl
  | cons loc rest ih =>
    have hl := h loc (by simp)
    simp only [anyLocatorHit, hl, if_false]
    exact ih (fun l hm => h l (by simp [hm]))

theorem waitTime_self (d : Int) : waitTime d d = d := by
  unfold waitTime
  by_cases h : d = 0 <;> simp [h]

/-! ## Driver Registry model (src/core/driver_manager.py)

The class-level dicts _drivers and _browser_configs are modelled as
association lists with Python-dict semantics (assignment replaces the
binding for an existing key, pop removes it, membership and get look the
key up). Driver handles are numbered by a freshness counter: each
successful factory call returns the next handle, modelling that
create_mobile_driver constructs a brand-new session object. -/

/-- Dict lookup, d.get(k) / d[k]. -/
def alGet {β : Type} (k : String) : List (String × β) → Option β
  | [] => none
  | (k2, v) :: rest => if k2 = k then some v else alGet k rest

/-- Dict assignment, d[k] = v: replace the binding if the key exists,
otherwise append it. -/
def alSet {β : Type} (k : String) (v : β) : List (String × β) → List (String × β)
  | [] => [(k, v)]
  | (k2, v2) :: rest => if k2 = k then (k, v) :: rest else (k2, v2) :: alSet k v rest

/-- Dict removal, d.pop(k, None). -/
def alErase {β : Type} (k : String) : List (String × β) → List (String × β)
  | [] => []
  | (k2, v) :: rest => if k2 = k then alErase k rest else (k2, v) :: alErase k rest

/-- The BrowserType enum; only CHROME exists in the source. -/
inductive BrowserType where
  | chrome
deriving DecidableEq, Repr

/-- BrowserType.value, the string payload of the enum member. -/
def BrowserType.value : BrowserType → String
  | .chrome => "chrome"

/-- BrowserConstants.DEFAULT_DEVICE. -/
def DEFAULT_DEVICE : String := "iPhone SE"

/-- The configuration record stored in _browser_configs:
browser / device / mobile keys. -/
structure Config where
  browser : BrowserType
  device : String
  mobile : Bool
deriving DecidableEq, Repr

/-- Session handles are opaque; identity is what the claims compare. -/
abbrev Driver := Nat

/-- The DriverException payload raised by get_mobile_driver on a failed
construction: details = worker_id, browser value, device, error cause. -/
structure DriverExc where
  worker_id : String
  browser : String
  device : String
  error : String
deriving DecidableEq, Repr

/-- The mutable class state of DriverManager: the _drivers dict, the
_browser_configs dict, and the freshness counter for new sessions. -/
structure DMState where
  drivers : List (String × Driver)
  browser_configs : List (String × Config)
  nextDriver : Nat
deriving DecidableEq, Repr

/-- DriverManager._get_worker_key. `if worker_id:` is a Python truthiness
test, so the empty string falls through to the xdist / thread fallbacks;
xdist_worker models os.environ.get("PYTEST_XDIST_WORKER") and thread_id
the current thread identity. -/
def get_worker_key (worker_id : Option String) (xdist_worker : Option String)
    (thread_id : Nat) : String :=
  if worker_id.getD "" ≠ "" then "worker_" ++ worker_id.getD ""
  else
    match xdist_worker with
    | some w => "xdist_" ++ w
    | none => "thread_" ++ toString thread_id

/-- Python `x or default` for an Optional[str] x (None and "" are falsy). -/
def pyOrStr (s : Option String) (d : String) : String :=
  match s with
  | none => d
  | some v => if v = "" then d else v

/-- DriverManager._cleanup_worker. If the key has a driver, quit it —
quitOk = false models driver.quit() raising; the exception is caught and
logged, and the finally block pops the key from both dicts either way.
If the key has no driver, nothing at all is removed (in particular a
configuration record without a driver survives). -/
def cleanup_worker (st : DMState) (worker_key : String) (quitOk : Bool) : DMState :=
  match alGet worker_key st.drivers with
  | some _ =>
    { st with drivers := alErase worker_key st.drivers,
              browser_configs := alErase worker_key st.browser_configs }
  | none => st

/-- The body of DriverManager.get_mobile_driver after key/default
resolution, i.e. the `with cls._lock: try: ...` block. factoryError
models the outcome of factory.create_mobile_driver(device_name): none
means it returned a fresh session (numbered st.nextDriver), some err
means it raised with cause err, in which case the except handler runs
_cleanup_worker and raises DriverException with the worker key, browser
value, device and cause. The configuration record is stored before the
factory is called, exactly as in the source. -/
def get_mobile_driver_keyed (st : DMState) (worker_key device_name : String)
    (browser_type : BrowserType) (factoryError : Option String) :
    Except DriverExc Driver × DMState :=
  match alGet worker_key st.drivers with
  | some d => (Except.ok d, st)
  | none =>
    let st1 := { st with
      browser_configs :=
        alSet worker_key ⟨browser_type, device_name, true⟩ st.browser_configs }
    match factoryError with
    | none =>
      (Except.ok st1.nextDriver,
       { st1 with drivers := alSet worker_key st1.nextDriver st1.drivers,
                  nextDriver := st1.nextDriver + 1 })
    | some err =>
      (Except.error ⟨worker_key, browser_type.value, device_name, err⟩,
       cleanup_worker st1 worker_key true)

/-- DriverManager.get_mobile_driver: resolve defaults and the worker key,
then run the locked block. `device or cls._default_device` and
`browser or cls._default_browser` are Python truthiness defaults. -/
def get_mobile_driver (st : DMState) (worker_id device : Option String)
    (browser : Option BrowserType) (xdist_worker : Option String)
    (thread_id : Nat) (factoryError : Option String) :
    Except DriverExc Driver × DMState :=
  get_mobile_driver_keyed st (get_worker_key worker_id xdist_worker thread_id)
    (pyOrStr device DEFAULT_DEVICE) (browser.getD BrowserType.chrome) factoryError

/-- DriverManager.quit_driver with the worker key already resolved. -/
def quit_driver_keyed (st : DMState) (worker_key : String) (quitOk : Bool) : DMState :=
  cleanup_worker st worker_key quitOk

/-- DriverManager.quit_driver. -/
def quit_driver (st : DMState) (worker_id : Option String)
    (xdist_worker : Option String) (thread_id : Nat) (quitOk : Bool) : DMState :=
  cleanup_worker st (get_worker_key worker_id xdist_worker thread_id) quitOk

/-- DriverManager.quit_all_drivers: snapshot the key list of _drivers,
then run _cleanup_worker for each key; quitOk says, per worker, whether
its driver.quit() succeeds. -/
def quit_all_drivers (st : DMState) (quitOk : String → Bool) : DMState :=
  (st.drivers.map Prod.fst).foldl (fun s k => cleanup_worker s k (quitOk k)) st

/-- DriverManager.get_current_device with the worker key resolved:
configs.get(worker_key, \x7b\x7d).get("device"). -/
def get_current_device_keyed (st : DMState) (worker_key : String) : Option String :=
  match alGet worker_key st.browser_configs with
  | some cfg => some cfg.device
  | none => none

/-- DriverManager.get_current_browser with the worker key resolved. -/
def get_current_browser_keyed (st : DMState) (worker_key : String) : Option BrowserType :=
  match alGet worker_key st.browser_configs with
  | some cfg => some cfg.browser
  | none => none

/-- DriverManager.get_active_workers: a copy of _browser_configs
(Lean values are immutable, so returning the list is the copy). -/
def get_active_workers (st : DMState) : List (String × Config) :=
  st.browser_configs

/-! ## Lock discipline model

A static model of the class-attribute accesses each DriverManager method
performs on the shared dicts, annotated with whether the access site is
inside a `with cls._lock:` region in the source. One entry per distinct
access site, in source order. -/

/-- The two shared dicts of DriverManager. -/
inductive RegistryField where
  | driversMap
  | configsMap
deriving DecidableEq, Repr

/-- Read or write access. -/
inductive AccessKind where
  | readAccess
  | writeAccess
deriving DecidableEq, Repr

/-- One access to a shared dict, with its lock context. -/
structure RegistryAccess where
  field : RegistryField
  kind : AccessKind
  underLock : Bool
deriving DecidableEq, Repr

/-- The access sites of _cleanup_worker (lines 306-316): membership test
and read of _drivers, then the two pops. _cleanup_worker takes no lock
itself; it runs in whatever lock context its caller provides. -/
def cleanup_worker_accesses (locked : Bool) : List RegistryAccess :=
  [⟨.driversMap, .readAccess, locked⟩,
   ⟨.driversMap, .writeAccess, locked⟩,
   ⟨.configsMap, .writeAccess, locked⟩]

/-- The access sites of get_mobile_driver (lines 175-198): the whole
body, including the failure-path _cleanup_worker call, is inside
`with cls._lock`. -/
def get_mobile_driver_accesses : List RegistryAccess :=
  [⟨.driversMap, .readAccess, true⟩,
   ⟨.configsMap, .writeAccess, true⟩,
   ⟨.driversMap, .writeAccess, true⟩,
   ⟨.driversMap, .readAccess, true⟩]
  ++ cleanup_worker_accesses true

/-- The access sites of quit_driver (lines 281-289): it resolves the
worker key and calls _cleanup_worker directly, WITHOUT acquiring
cls._lock — there is no `with cls._lock:` in quit_driver. -/
def quit_driver_accesses : List RegistryAccess :=
  cleanup_worker_accesses false

/-- The access sites of quit_all_drivers (lines 291-297): the key-list
snapshot and every _cleanup_worker call are inside `with cls._lock`. -/
def quit_all_drivers_accesses : List RegistryAccess :=
  ⟨.driversMap, .readAccess, true⟩ :: cleanup_worker_accesses true

/-- The access sites of get_active_workers (lines 346-354): the copy of
_browser_configs is taken inside `with cls._lock`. -/
def get_active_workers_accesses : List RegistryAccess :=
  [⟨.configsMap, .readAccess, true⟩]

/-- Does every write access in the list happen under the lock? -/
def allWritesLocked (l : List RegistryAccess) : Bool :=
  l.all (fun a => a.kind == AccessKind.readAccess || a.underLock)

/-- Does every access in the list happen under the lock? -/
def allAccessesLocked (l : List RegistryAccess) : Bool :=
  l.all (fun a => a.underLock)

/-! ### Association list lemmas -/

theorem alGet_alSet_self {β : Type} (k : String) (v : β) (l : List (String × β)) :
    alGet k (alSet k v l) = some v := by
  induction l with
  | nil => simp [alSet, alGet]
  | cons p rest ih =>
    by_cases h : p.1 = k
    · simp [alSet, alGet, h]
    · simp [alSet, alGet, h, ih]

theorem alGet_alSet_ne {β : Type} (k k2 : String) (v : β) (l : List (String × β))
    (h : k2 ≠ k) : alGet k (alSet k2 v l) = alGet k l := by
  induction l with
  | nil => simp [alSet, alGet, h]
  | cons p rest ih =>
    by_cases hp : p.1 = k2
    · simp [alSet, alGet, hp, h]
    · by_cases hk : p.1 = k
      · simp [alSet, alGet, hp, hk, Ne.symm h]
      · simp [alSet, alGet, hp, hk, ih]

theorem alGet_alErase_self {β : Type} (k : String) (l : List (String × β)) :
    alGet k (alErase k l) = none := by
  induction l with
  | nil => rfl
  | cons p rest ih =>
    by_cases h : p.1 = k
    · simp [alErase, h, ih]
    · simp [alErase, alGet, h, ih]

theorem alGet_alErase_ne {β : Type} (k k2 : String) (l : List (String × β))
    (h : k2 ≠ k) : alGet k (alErase k2 l) = alGet k l := by
  induction l with
  | nil => rfl
  | cons p rest ih =>
    by_cases hp : p.1 = k2
    · have : p.1 ≠ k := by rw [hp]; exact h
      simp [alErase, alGet, hp, this, ih, h]
    · by_cases hk : p.1 = k
      · simp [alErase, alGet, hp, hk, Ne.symm h]
      · simp [alErase, alGet, hp, hk, ih]

theorem alGet_ne_none_mem {β : Type} (k : String) (l : List (String × β))
    (h : alGet k l ≠ none) : k ∈ l.map Prod.fst := by
  induction l with
  | nil => simp [alGet] at h
  | cons p rest ih =>
    by_cases hp : p.1 = k
    · simp [hp]
    · simp only [alGet, hp, if_false] at h
      simp [ih h]

theorem eq_nil_of_alGet_all_none {β : Type} (l : List (String × β))
    (h : ∀ k, alGet k l = none) : l = [] := by
  cases l with
  | nil => rfl
  | cons p rest =>
    have := h p.1
    simp [alGet] at this

/-! ### Registry operation lemmas -/

/-- Reuse path: a worker that already has a driver gets it back and the
state is untouched, whatever the requested configuration and whatever
the factory would have done. -/
theorem get_mobile_driver_keyed_hit (st : DMState) (k dev : String)
    (b : BrowserType) (cf : Option String) (d : Driver)
    (h : alGet k st.drivers = some d) :
    get_mobile_driver_keyed st k dev b cf = (Except.ok d, st) := by
  simp [get_mobile_driver_keyed, h]

/-- Creation path: a worker with no driver gets the fresh session
numbered st.nextDriver, and both dicts gain its entry. -/
theorem get_mobile_driver_keyed_create (st : DMState) (k dev : String)
    (b : BrowserType) (h : alGet k st.drivers = none) :
    get_mobile_driver_keyed st k dev b none =
      (Except.ok st.nextDriver,
       { drivers := alSet k st.nextDriver st.drivers,
         browser_configs := alSet k ⟨b, dev, true⟩ st.browser_configs,
         nextDriver := st.nextDriver + 1 }) := by
  simp [get_mobile_driver_keyed, h]

/-- Failure path: the factory raised, the DriverException carries the
worker key, browser, device and cause — and because _cleanup_worker only
pops when the key is in _drivers, the configuration record stored just
before the factory call survives. -/
theorem get_mobile_driver_keyed_fail (st : DMState) (k dev err : String)
    (b : BrowserType) (h : alGet k st.drivers = none) :
    get_mobile_driver_keyed st k dev b (some err) =
      (Except.error ⟨k, b.value, dev, err⟩,
       { st with browser_configs := alSet k ⟨b, dev, true⟩ st.browser_configs }) := by
  simp [get_mobile_driver_keyed, cleanup_worker, h]

/-- After a successful acquire, the returned driver is the one stored
for the key. -/
theorem acquire_ok_lookup (st st1 : DMState) (k dev : String)
    (b : BrowserType) (cf : Option String) (d : Driver)
    (h : get_mobile_driver_keyed st k dev b cf = (Except.ok d, st1)) :
    alGet k st1.drivers = some d := by
  cases hg : alGet k st.drivers with
  | some d0 =>
    rw [get_mobile_driver_keyed_hit st k dev b cf d0 hg] at h
    obtain ⟨h1, h2⟩ := Prod.mk.injEq .. ▸ h
    cases h1
    rw [← h2]
    exact hg
  | none =>
    cases cf with
    | none =>
      rw [get_mobile_driver_keyed_create st k dev b hg] at h
      obtain ⟨h1, h2⟩ := Prod.mk.injEq .. ▸ h
      cases h1
      rw [← h2]
      exact alGet_alSet_self k st.nextDriver st.drivers
    | some err =>
      rw [get_mobile_driver_keyed_fail st k dev err b hg] at h
      exact absurd (congrArg Prod.fst h) (by simp)

/-- _cleanup_worker ignores whether driver.quit() succeeded: the
exception is swallowed and the finally block runs either way. -/
theorem cleanup_worker_quit_irrelevant (st : DMState) (k : String) (q q2 : Bool) :
    cleanup_worker st k q = cleanup_worker st k q2 := rfl

/-- cleanup_worker with a driver present: both dicts lose the key. -/
theorem cleanup_worker_hit (st : DMState) (k : String) (q : Bool) (d : Driver)
    (h : alGet k st.drivers = some d) :
    cleanup_worker st k q =
      { st with drivers := alErase k st.drivers,
                browser_configs := alErase k st.browser_configs } := by
  simp [cleanup_worker, h]

/-- cleanup_worker with no driver for the key: the state is untouched
(in particular an orphaned configuration record is NOT removed). -/
theorem cleanup_worker_miss (st : DMState) (k : String) (q : Bool)
    (h : alGet k st.drivers = none) :
    cleanup_worker st k q = st := by
  simp [cleanup_worker, h]

/-- Folding cleanup_worker over any key list that covers every key of
_drivers empties _drivers. -/
theorem foldl_cleanup_drivers_nil (ks : List String) (st : DMState)
    (q : String → Bool)
    (h : ∀ k, alGet k st.drivers ≠ none → k ∈ ks) :
    ((ks.foldl (fun s k => cleanup_worker s k (q k)) st)).drivers = [] := by
  induction ks generalizing st with
  | nil =>
    have : ∀ k, alGet k st.drivers = none := by
      intro k
      by_contra hc
      exact absurd (h k hc) (List.not_mem_nil k)
    simpa using eq_nil_of_alGet_all_none st.drivers this
  | cons k0 ks ih =>
    simp only [List.foldl_cons]
    apply ih
    intro k hkd
    cases hd : alGet k0 st.drivers with
    | some d0 =>
      rw [cleanup_worker_hit st k0 (q k0) d0 hd] at hkd
      by_cases hke : k = k0
      · subst hke
        simp only [alGet_alErase_self] at hkd
        exact absurd rfl hkd
      · simp only at hkd
        rw [alGet_alErase_ne k k0 st.drivers (Ne.symm hke)] at hkd
        have := h k hkd
        simp only [List.mem_cons] at this
        exact this.resolve_left hke
    | none =>
      rw [cleanup_worker_miss st k0 (q k0) hd] at hkd
      have := h k hkd
      simp only [List.mem_cons] at this
      rcases this with rfl | hm
      · exact absurd hd hkd
      · exact hm

/-- Folding cleanup_worker never creates a configuration record. -/
theorem foldl_cleanup_configs_none_preserved (ks : List String) (st : DMState)
    (q : String → Bool) (k : String)
    (h : alGet k st.browser_configs = none) :
    alGet k ((ks.foldl (fun s k2 => cleanup_worker s k2 (q k2)) st)).browser_configs = none := by
  induction ks generalizing st with
  | nil => simpa using h
  | cons k0 ks ih =>
    simp only [List.foldl_cons]
    apply ih
    cases hd : alGet k0 st.drivers with
    | some d0 =>
      rw [cleanup_worker_hit st k0 (q k0) d0 hd]
      by_cases hke : k = k0
      · subst hke
        simp [alGet_alErase_self]
      · simp only
        rw [alGet_alErase_ne k k0 st.browser_configs (Ne.symm hke)]
        exact h
    | none =>
      rw [cleanup_worker_miss st k0 (q k0) hd]
      exact h

/-- A worker that has a driver and whose key is in the fold list ends up
with no configuration record. -/
theorem foldl_cleanup_configs_cleaned (ks : List String) (st : DMState)
    (q : String → Bool) (k : String)
    (hk : k ∈ ks) (hd : alGet k st.drivers ≠ none) :
    alGet k ((ks.foldl (fun s k2 => cleanup_worker s k2 (q k2)) st)).browser_configs = none := by
  induction ks generalizing st with
  | nil => exact absurd hk (List.not_mem_nil k)
  | cons k0 ks ih =>
    simp only [List.foldl_cons]
    by_cases hke : k = k0
    · subst hke
      cases hd0 : alGet k st.drivers with
      | some d0 =>
        rw [cleanup_worker_hit st k (q k) d0 hd0]
        exact foldl_cleanup_configs_none_preserved ks _ q k (by simp [alGet_alErase_self])
      | none => exact absurd hd0 hd
    · have hm : k ∈ ks := by
        simp only [List.mem_cons] at hk
        exact hk.resolve_left hke
      cases hd0 : alGet k0 st.drivers with
      | some d0 =>
        rw [cleanup_worker_hit st k0 (q k0) d0 hd0]
        refine ih _ hm ?_
        simp only
        rw [alGet_alErase_ne k k0 st.drivers (Ne.symm hke)]
        exact hd
      | none =>
        rw [cleanup_worker_miss st k0 (q k0) hd0]
        exact ih _ hm hd

/-! ## Claim theorems: Locator Resolution -/

/-- Demo oracle for witnesses: the presence wait succeeds only on the
css locator, yielding element 7. -/
def demoPresence : Int → Locator → Option Element :=
  fun _ loc => if loc = ⟨"css", "b.button"⟩ then some 7 else none

/-- Demo locators for witnesses. -/
def locA : Locator := ⟨"xpath", "//a"⟩

def locB : Locator := ⟨"css", "b.button"⟩

/-- C2: find_element evaluates a non-empty locator set in strict
sequence order: every locator is probed with the same full effective
wait time; if every locator times out it raises
ElementNotFoundException carrying the full locator set and that wait
time; and at the first locator whose presence wait succeeds it returns
that element, having consulted exactly the failing prefix plus the
succeeding locator — no later locator is consulted. -/
theorem find_element_sequential_fallback
    (presence : Int → Locator → Option Element) (locators : List Locator)
    (timeout explicit_wait : Int) (hne : locators ≠ []) :
    ((∀ loc ∈ locators, presence (waitTime timeout explicit_wait) loc = none) →
        find_element presence locators timeout explicit_wait =
          Except.error ⟨locators, none, some (waitTime timeout explicit_wait)⟩)
    ∧ (∀ pre loc post e, locators = pre ++ loc :: post →
        (∀ l ∈ pre, presence (waitTime timeout explicit_wait) l = none) →
        presence (waitTime timeout explicit_wait) loc = some e →
          find_element presence locators timeout explicit_wait = Except.ok e
          ∧ consultedLocators (presence (waitTime timeout explicit_wait)) locators
              = pre ++ [loc]) := by
  have hem : locators.isEmpty = false := by
    cases locators with
    | nil => exact absurd rfl hne
    | cons a l => rfl
  constructor
  · intro hall
    simp [find_element, hem,
      firstHit_of_all_none (presence (waitTime timeout explicit_wait)) locators hall]
  · intro pre loc post e heq hpre hl
    subst heq
    refine ⟨?_, consultedLocators_split _ pre loc post e hpre hl⟩
    simp [find_element, hem, firstHit_split _ pre loc post e hpre hl]

/-- Witness for C2: with set [locA, locB] where locA times out and locB
matches element 7, find_element returns 7 and consults both locators
(locA with its full slice, then locB) and nothing beyond. -/
theorem find_element_sequential_fallback_witness :
    find_element demoPresence [locA, locB] 5 20 = Except.ok 7
    ∧ consultedLocators (demoPresence (waitTime 5 20)) [locA, locB] = [locA, locB] := by
  have h := (find_element_sequential_fallback demoPresence [locA, locB] 5 20
    (by decide)).2 [locA] locB [] 7 rfl (by decide) (by decide)
  exact ⟨h.1, by simpa using h.2⟩

/-- C6: on an empty locator set find_element fails immediately with
ElementNotFoundException (no locator probed, no timeout recorded) and
find_elements returns [] immediately; on a non-empty set find_elements
returns [] when every locator timed out, and at the first locator whose
presence wait succeeds it returns all currently-matching elements for
that locator and consults no later locator. -/
theorem find_element_empty_and_find_elements_spec
    (presence : Int → Locator → Option Element) (elementsOf : Locator → List Element)
    (locators : List Locator) (timeout explicit_wait : Int) :
    find_element presence [] timeout explicit_wait =
        Except.error ⟨[], some "No locators provided", none⟩
    ∧ find_elements presence elementsOf [] timeout explicit_wait = []
    ∧ ((∀ loc ∈ locators, presence (waitTime timeout explicit_wait) loc = none) →
        find_elements presence elementsOf locators timeout explicit_wait = [])
    ∧ (∀ pre loc post e, locators = pre ++ loc :: post →
        (∀ l ∈ pre, presence (waitTime timeout explicit_wait) l = none) →
        presence (waitTime timeout explicit_wait) loc = some e →
          find_elements presence elementsOf locators timeout explicit_wait = elementsOf loc
          ∧ consultedLocators (presence (waitTime timeout explicit_wait)) locators
              = pre ++ [loc]) := by
  refine ⟨rfl, rfl, ?_, ?_⟩
  · intro hall
    cases locators with
    | nil => rfl
    | cons l0 ls =>
      simp [find_elements, firstHit_of_all_none _ _ hall]
  · intro pre loc post e heq hpre hl
    subst heq
    have hem : (pre ++ loc :: post).isEmpty = false := by simp
    refine ⟨?_, consultedLocators_split _ pre loc post e hpre hl⟩
    simp [find_elements, hem, firstHit_split _ pre loc post e hpre hl]

/-- Witness for C6 at concrete inputs: empty-set behaviour, the
all-timed-out case and the first-success case of find_elements. -/
theorem find_element_empty_and_find_elements_spec_witness :
    find_element demoPresence [] 5 20 =
        Except.error ⟨[], some "No locators provided", none⟩
    ∧ find_elements demoPresence (fun _ => [7, 8]) [] 5 20 = []
    ∧ find_elements demoPresence (fun _ => [7, 8]) [locA] 5 20 = []
    ∧ find_elements demoPresence (fun _ => [7, 8]) [locA, locB] 5 20 = [7, 8] := by
  have h0 := find_element_empty_and_find_elements_spec demoPresence
    (fun _ => [7, 8]) [locA] 5 20
  have h1 := (find_element_empty_and_find_elements_spec demoPresence
    (fun _ => [7, 8]) [locA, locB] 5 20).2.2.2 [locA] locB [] 7 rfl
    (by decide) (by decide)
  exact ⟨h0.1, h0.2.1, h0.2.2.1 (by decide), h1.1⟩

/-- C7: the boolean probes are total Bool-valued lookups — lookup
failure is absorbed, never propagated: if no locator in the set
satisfies the wait predicate within the effective wait, the probe
returns false. -/
theorem boolean_probes_all_fail_false
    (presence visibility clickable invisibility : Int → Locator → Bool)
    (textPresent : Int → Locator → String → Bool)
    (locators : List Locator) (timeout explicit_wait : Int)
    (topt1 topt2 : Option Int) (text : String)
    (h1 : ∀ loc ∈ locators, presence timeout loc = false)
    (h2 : ∀ loc ∈ locators, visibility timeout loc = false)
    (h3 : ∀ loc ∈ locators, clickable timeout loc = false)
    (h4 : ∀ loc ∈ locators, invisibility (waitTimeOpt topt1 explicit_wait) loc = false)
    (h5 : ∀ loc ∈ locators, textPresent (waitTimeOpt topt2 explicit_wait) loc text = false) :
    is_element_present presence locators timeout = false
    ∧ is_element_visible visibility locators timeout = false
    ∧ is_element_clickable clickable locators timeout = false
    ∧ wait_for_element_to_disappear invisibility locators topt1 explicit_wait = false
    ∧ wait_for_text textPresent locators text topt2 explicit_wait = false := by
  cases locators with
  | nil =>
    exact ⟨rfl, rfl, rfl, rfl, rfl⟩
  | cons l0 ls =>
    refine ⟨?_, ?_, ?_, ?_, ?_⟩
    · simp [is_element_present, anyLocatorHit_of_all_false _ _ h1]
    · simp [is_element_visible, anyLocatorHit_of_all_false _ _ h2]
    · simp [is_element_clickable, anyLocatorHit_of_all_false _ _ h3]
    · simp [wait_for_element_to_disappear, anyLocatorHit_of_all_false _ _ h4]
    · simp [wait_for_text, anyLocatorHit_of_all_false _ _ h5]

/-- Witness for C7: oracles on which every wait times out over a
two-locator set; all five probes return false. -/
theorem boolean_probes_all_fail_false_witness :
    is_element_present (fun _ _ => false) [locA, locB] 5 = false
    ∧ is_element_visible (fun _ _ => false) [locA, locB] 5 = false
    ∧ is_element_clickable (fun _ _ => false) [locA, locB] 5 = false
    ∧ wait_for_element_to_disappear (fun _ _ => false) [locA, locB] none 20 = false
    ∧ wait_for_text (fun _ _ _ => false) [locA, locB] "Live" (some 5) 20 = false :=
  boolean_probes_all_fail_false (fun _ _ => false) (fun _ _ => false)
    (fun _ _ => false) (fun _ _ => false) (fun _ _ _ => false)
    [locA, locB] 5 20 none (some 5) "Live"
    (by decide) (by decide) (by decide) (by decide) (by decide)

/-- C9: on an empty locator set every boolean probe returns its fixed
value with no wait performed (the result does not depend on any wait
oracle): false for is_element_present, is_element_visible,
is_element_clickable, wait_for_text, wait_for_element_to_disappear, and
true for is_element_not_present. -/
theorem probes_empty_locator_set
    (presence visibility clickable inv1 inv2 : Int → Locator → Bool)
    (textPresent : Int → Locator → String → Bool)
    (timeout explicit_wait : Int) (topt1 topt2 : Option Int) (text : String) :
    is_element_present presence [] timeout = false
    ∧ is_element_visible visibility [] timeout = false
    ∧ is_element_clickable clickable [] timeout = false
    ∧ wait_for_text textPresent [] text topt2 explicit_wait = false
    ∧ wait_for_element_to_disappear inv1 [] topt1 explicit_wait = false
    ∧ is_element_not_present inv2 [] timeout = true :=
  ⟨rfl, rfl, rfl, rfl, rfl, rfl⟩

/-- C10: in find_element, find_elements and click_element a timeout of 0
(the falsy int) is replaced by the configured default explicit wait,
while a non-zero timeout is used as given — so a zero-wait lookup cannot
be requested through the timeout parameter: passing 0 behaves exactly
like passing the default itself. -/
theorem falsy_timeout_replaced_by_default
    (presence clickable : Int → Locator → Option Element)
    (elementsOf : Locator → List Element) (locators : List Locator)
    (timeout explicit_wait : Int) (h : timeout ≠ 0) :
    waitTime timeout explicit_wait = timeout
    ∧ waitTime 0 explicit_wait = explicit_wait
    ∧ find_element presence locators 0 explicit_wait =
        find_element presence locators explicit_wait explicit_wait
    ∧ find_elements presence elementsOf locators 0 explicit_wait =
        find_elements presence elementsOf locators explicit_wait explicit_wait
    ∧ click_element clickable locators 0 explicit_wait =
        click_element clickable locators explicit_wait explicit_wait := by
  have hz : waitTime 0 explicit_wait = explicit_wait := by simp [waitTime]
  have hs : waitTime explicit_wait explicit_wait = explicit_wait := waitTime_self _
  refine ⟨by simp [waitTime, h], hz, ?_, ?_, ?_⟩ <;>
    simp only [find_element, find_elements, click_element, hz, hs]

/-- Witness for C10 at timeout 5 and default 20. -/
theorem falsy_timeout_replaced_by_default_witness :
    waitTime 5 20 = 5
    ∧ waitTime 0 20 = 20
    ∧ find_element demoPresence [locA, locB] 0 20 =
        find_element demoPresence [locA, locB] 20 20
    ∧ find_elements demoPresence (fun _ => [7, 8]) [locA, locB] 0 20 =
        find_elements demoPresence (fun _ => [7, 8]) [locA, locB] 20 20
    ∧ click_element demoPresence [locA, locB] 0 20 =
        click_element demoPresence [locA, locB] 20 20 :=
  falsy_timeout_replaced_by_default demoPresence demoPresence
    (fun _ => [7, 8]) [locA, locB] 5 20 (by decide)

/-! ## Claim theorems: Driver Registry -/

deriving instance DecidableEq for Except

/-- C1 (code bug): from an empty registry, an acquire whose factory call
fails raises DriverException carrying the worker key, browser, device
and underlying cause, and leaves no session handle — but the
configuration record stored before the factory call is NOT removed,
because _cleanup_worker pops only when the key is in _drivers. So
get_current_device returns the requested device instead of None after
the failed call, contradicting the claim. -/
theorem acquire_failure_keeps_config_record :
    get_mobile_driver (⟨[], [], 0⟩ : DMState) (some "w1") (some "iPhone 12")
        none none 7 (some "chromedriver launch failed") =
      (Except.error ⟨"worker_w1", "chrome", "iPhone 12", "chromedriver launch failed"⟩,
       (⟨[], [("worker_w1", ⟨BrowserType.chrome, "iPhone 12", true⟩)], 0⟩ : DMState))
    ∧ alGet "worker_w1"
        ((⟨[], [("worker_w1", ⟨BrowserType.chrome, "iPhone 12", true⟩)], 0⟩ : DMState)).drivers
        = none
    ∧ get_current_device_keyed
        (⟨[], [("worker_w1", ⟨BrowserType.chrome, "iPhone 12", true⟩)], 0⟩ : DMState)
        "worker_w1" = some "iPhone 12" := by
  decide

/-- C3: a second acquire for the same worker key without an intervening
release returns the identical session handle and leaves the whole
registry state — including the stored configuration record — unchanged,
whatever device and browser the second call requests and whatever the
factory would have done (it is never called). -/
theorem acquire_reuse_identical (st st1 : DMState) (k dev1 dev2 : String)
    (b1 b2 : BrowserType) (cf1 cf2 : Option String) (d1 : Driver)
    (h : get_mobile_driver_keyed st k dev1 b1 cf1 = (Except.ok d1, st1)) :
    get_mobile_driver_keyed st1 k dev2 b2 cf2 = (Except.ok d1, st1) :=
  get_mobile_driver_keyed_hit st1 k dev2 b2 cf2 d1
    (acquire_ok_lookup st st1 k dev1 b1 cf1 d1 h)

/-- Witness for C3: after acquiring session 0 for worker_w1 with the
iPhone SE configuration, a second acquire requesting Pixel 5 returns the
same handle 0 and the state still records the iPhone SE configuration. -/
theorem acquire_reuse_identical_witness :
    get_mobile_driver_keyed
        (⟨[("worker_w1", 0)],
          [("worker_w1", ⟨BrowserType.chrome, "iPhone SE", true⟩)], 1⟩ : DMState)
        "worker_w1" "Pixel 5" BrowserType.chrome (some "would fail") =
      (Except.ok 0,
       (⟨[("worker_w1", 0)],
         [("worker_w1", ⟨BrowserType.chrome, "iPhone SE", true⟩)], 1⟩ : DMState)) :=
  acquire_reuse_identical (⟨[], [], 0⟩ : DMState) _ "worker_w1" "iPhone SE"
    "Pixel 5" BrowserType.chrome BrowserType.chrome none (some "would fail") 0
    (by decide)

/-- C4 counterexample: the claim says quit_all_drivers leaves zero
configuration records. Reachable refutation: a failed creation (the C1
code bug) leaves an orphaned configuration record with no session, and
quit_all_drivers — which iterates over the keys of _drivers only — never
removes it. -/
theorem quit_all_drivers_orphan_config_counterexample :
    (quit_all_drivers
      ((get_mobile_driver (⟨[], [], 0⟩ : DMState) (some "w1") none none none 7
          (some "chromedriver launch failed")).2)
      (fun _ => true)).browser_configs ≠ [] := by
  decide

/-- C4 (amended): quit_all_drivers leaves zero session entries whatever
the starting state and however many workers were active, removes the
configuration record of every worker that had a session, and no quit
failure escapes or changes the outcome — the result is identical
whichever subset of the per-worker quit calls fails. Only configuration
records whose key had no session (orphans of a failed creation) are not
removed. -/
theorem quit_all_drivers_total_cleanup (st : DMState) (q q2 : String → Bool) :
    (quit_all_drivers st q).drivers = []
    ∧ (∀ k, alGet k st.drivers ≠ none →
        alGet k (quit_all_drivers st q).browser_configs = none)
    ∧ quit_all_drivers st q = quit_all_drivers st q2 := by
  refine ⟨?_, ?_, rfl⟩
  · exact foldl_cleanup_drivers_nil (st.drivers.map Prod.fst) st q
      (fun k h => alGet_ne_none_mem k st.drivers h)
  · intro k h
    exact foldl_cleanup_configs_cleaned (st.drivers.map Prod.fst) st q k
      (alGet_ne_none_mem k st.drivers h) h

/-- Witness for C4 (amended): two active workers, the quit of the first
one failing; quit_all_drivers still empties _drivers, removes both
configuration records, and the outcome equals the all-quits-succeed run. -/
theorem quit_all_drivers_total_cleanup_witness :
    (quit_all_drivers
        (⟨[("worker_a", 0), ("worker_b", 1)],
          [("worker_a", ⟨BrowserType.chrome, "iPhone SE", true⟩),
           ("worker_b", ⟨BrowserType.chrome, "Pixel 5", true⟩)], 2⟩ : DMState)
        (fun k => k ≠ "worker_a")).drivers = []
    ∧ alGet "worker_a"
        (quit_all_drivers
          (⟨[("worker_a", 0), ("worker_b", 1)],
            [("worker_a", ⟨BrowserType.chrome, "iPhone SE", true⟩),
             ("worker_b", ⟨BrowserType.chrome, "Pixel 5", true⟩)], 2⟩ : DMState)
          (fun k => k ≠ "worker_a")).browser_configs = none
    ∧ quit_all_drivers
        (⟨[("worker_a", 0), ("worker_b", 1)],
          [("worker_a", ⟨BrowserType.chrome, "iPhone SE", true⟩),
           ("worker_b", ⟨BrowserType.chrome, "Pixel 5", true⟩)], 2⟩ : DMState)
        (fun k => k ≠ "worker_a")
      = quit_all_drivers
          (⟨[("worker_a", 0), ("worker_b", 1)],
            [("worker_a", ⟨BrowserType.chrome, "iPhone SE", true⟩),
             ("worker_b", ⟨BrowserType.chrome, "Pixel 5", true⟩)], 2⟩ : DMState)
          (fun _ => true) := by
  have h := quit_all_drivers_total_cleanup
    (⟨[("worker_a", 0), ("worker_b", 1)],
      [("worker_a", ⟨BrowserType.chrome, "iPhone SE", true⟩),
       ("worker_b", ⟨BrowserType.chrome, "Pixel 5", true⟩)], 2⟩ : DMState)
    (fun k => k ≠ "worker_a") (fun _ => true)
  exact ⟨h.1, h.2.1 "worker_a" (by decide), h.2.2⟩

/-- C5: for distinct worker keys with no prior sessions, acquire(k1) and
acquire(k2) return distinct session handles; release(k1) touches only
the k1 entry: afterwards get_current_device(k1) is None and the k1
session handle is gone, while the k2 session handle and configuration
record are exactly as before; and a subsequent acquire(k1) constructs a
fresh session whose handle differs from both earlier ones. -/
theorem acquire_release_isolation
    (st st1 st2 st4 : DMState) (k1 k2 dev1 dev2 dev3 : String)
    (b1 b2 b3 : BrowserType) (q : Bool) (d1 d2 d3 : Driver)
    (hk : k1 ≠ k2)
    (h1 : alGet k1 st.drivers = none)
    (h2 : alGet k2 st.drivers = none)
    (e1 : get_mobile_driver_keyed st k1 dev1 b1 none = (Except.ok d1, st1))
    (e2 : get_mobile_driver_keyed st1 k2 dev2 b2 none = (Except.ok d2, st2))
    (e3 : get_mobile_driver_keyed (quit_driver_keyed st2 k1 q) k1 dev3 b3 none
            = (Except.ok d3, st4)) :
    d1 ≠ d2
    ∧ get_current_device_keyed (quit_driver_keyed st2 k1 q) k1 = none
    ∧ alGet k1 (quit_driver_keyed st2 k1 q).drivers = none
    ∧ alGet k2 (quit_driver_keyed st2 k1 q).drivers = some d2
    ∧ alGet k2 (quit_driver_keyed st2 k1 q).browser_configs
        = alGet k2 st2.browser_configs
    ∧ get_current_device_keyed (quit_driver_keyed st2 k1 q) k2
        = get_current_device_keyed st2 k2
    ∧ d3 ≠ d1 ∧ d3 ≠ d2 := by
  rw [get_mobile_driver_keyed_create st k1 dev1 b1 h1] at e1
  simp only [Prod.mk.injEq, Except.ok.injEq] at e1
  obtain ⟨hd1, hst1⟩ := e1
  subst hd1
  subst hst1
  have hA : ∀ v : Driver, alGet k2 (alSet k1 v st.drivers) = none :=
    fun v => (alGet_alSet_ne k2 k1 v st.drivers hk).trans h2
  rw [get_mobile_driver_keyed_create _ k2 dev2 b2 (hA _)] at e2
  simp only [Prod.mk.injEq, Except.ok.injEq] at e2
  obtain ⟨hd2, hst2⟩ := e2
  subst hd2
  subst hst2
  have hB : ∀ v : Driver, alGet k1 (alSet k2 v (alSet k1 st.nextDriver st.drivers))
      = some st.nextDriver :=
    fun v => (alGet_alSet_ne k1 k2 v _ (Ne.symm hk)).trans
      (alGet_alSet_self k1 st.nextDriver st.drivers)
  simp only [quit_driver_keyed] at e3 ⊢
  rw [cleanup_worker_hit _ k1 q st.nextDriver (hB _)] at e3 ⊢
  rw [get_mobile_driver_keyed_create _ k1 dev3 b3 (alGet_alErase_self k1 _)] at e3
  simp only [Prod.mk.injEq, Except.ok.injEq] at e3
  obtain ⟨hd3, hst3⟩ := e3
  subst hd3
  subst hst3
  refine ⟨by simp, ?_, ?_, ?_, ?_, ?_, ?_, ?_⟩
  · simp [get_current_device_keyed, alGet_alErase_self]
  · simp [alGet_alErase_self]
  · simp only
    rw [alGet_alErase_ne k2 k1 _ hk]
    exact alGet_alSet_self k2 _ _
  · simp only
    rw [alGet_alErase_ne k2 k1 _ hk]
  · simp only [get_current_device_keyed]
    rw [alGet_alErase_ne k2 k1 _ hk]
  · show st.nextDriver + 1 + 1 ≠ st.nextDriver
    omega
  · show st.nextDriver + 1 + 1 ≠ st.nextDriver + 1
    omega

/-- Concrete two-worker state for the C5 witness: worker_gw0 owns
session 0 with the iPhone SE configuration, worker_gw1 owns session 1
with the Pixel 5 configuration. -/
def demoSt2 : DMState :=
  ⟨[("worker_gw0", 0), ("worker_gw1", 1)],
   [("worker_gw0", ⟨BrowserType.chrome, "iPhone SE", true⟩),
    ("worker_gw1", ⟨BrowserType.chrome, "Pixel 5", true⟩)], 2⟩

/-- Witness for C5: the two-lane scenario from the empty registry, with
the release of worker_gw0 simulating a failing driver.quit(). -/
theorem acquire_release_isolation_witness :
    (0 : Driver) ≠ 1
    ∧ get_current_device_keyed (quit_driver_keyed demoSt2 "worker_gw0" false)
        "worker_gw0" = none
    ∧ alGet "worker_gw0" (quit_driver_keyed demoSt2 "worker_gw0" false).drivers = none
    ∧ alGet "worker_gw1" (quit_driver_keyed demoSt2 "worker_gw0" false).drivers = some 1
    ∧ alGet "worker_gw1" (quit_driver_keyed demoSt2 "worker_gw0" false).browser_configs
        = alGet "worker_gw1" demoSt2.browser_configs
    ∧ get_current_device_keyed (quit_driver_keyed demoSt2 "worker_gw0" false)
        "worker_gw1" = get_current_device_keyed demoSt2 "worker_gw1"
    ∧ (2 : Driver) ≠ 0 ∧ (2 : Driver) ≠ 1 :=
  acquire_release_isolation (⟨[], [], 0⟩ : DMState)
    (⟨[("worker_gw0", 0)],
      [("worker_gw0", ⟨BrowserType.chrome, "iPhone SE", true⟩)], 1⟩ : DMState)
    demoSt2
    (⟨[("worker_gw1", 1), ("worker_gw0", 2)],
      [("worker_gw1", ⟨BrowserType.chrome, "Pixel 5", true⟩),
       ("worker_gw0", ⟨BrowserType.chrome, "iPad Air", true⟩)], 3⟩ : DMState)
    "worker_gw0" "worker_gw1" "iPhone SE" "Pixel 5" "iPad Air"
    BrowserType.chrome BrowserType.chrome BrowserType.chrome false 0 1 2
    (by decide) (by decide) (by decide) (by decide) (by decide) (by decide)

/-- C8 (code bug): the claim says every mutation of the session-entry
map is serialized by the global mutex. In the source, get_mobile_driver
and quit_all_drivers do mutate only inside `with cls._lock`, and
get_active_workers copies the configuration map under the lock — but
quit_driver calls _cleanup_worker directly with no lock acquisition, so
its pops of _drivers and _browser_configs are unserialized writes. -/
theorem quit_driver_unlocked_mutation :
    allWritesLocked quit_driver_accesses = false
    ∧ allWritesLocked get_mobile_driver_accesses = true
    ∧ allWritesLocked quit_all_drivers_accesses = true
    ∧ allAccessesLocked get_active_workers_accesses = true := by
  decide
